import Mathlib

/-!
# Billing core of Logers.Watch — shallow embedding

This file embeds the billing/metering core of the Logers.Watch backend
(`backend/src/modules/billing/service.ts`, class `BillingService`, together
with the constants of `billing/model.ts`) and proves the specified
properties of admission control, session lifecycle and settlement.

Modelling decisions:

* The Redis "Fast Ledger" and the Postgres "Durable Ledger" are combined in
  one explicit state record `St`.  Absent Redis keys read as `0`
  (`parseFloat((await redis.get(k)) || "0")`), so the per-user
  pending-deduction counter and the per-creator pending-watch-time counter
  are total functions into `ℚ`.
* JavaScript numbers are modelled as `ℚ` (the claims are about the
  accounting algebra, not float rounding).
* `Date.now()` is an explicit `now : Nat` argument (milliseconds).
* The Prisma `$transaction` either commits atomically or throws; the throw
  is modelled by `runTransaction` returning `none`, either because a row to
  update is missing or because of an external infrastructure failure
  (`txOk = false`).
* TTL bookkeeping (`EXPIRE`, `EX`) and read-through cache invalidation do
  not change any value read by the billing code and are not modelled.
* `settleToDatabase` is literally the composition of its read phase
  (`settleRead`: the two `redis.get`s) and its commit-and-reset phase
  (`settleCommit`); interleavings at the `await` boundary between the two
  phases are expressed by running another operation between them.
-/

namespace LogersWatch

/-- `COST_PER_REQUEST = 0.0002` dollars per segment request (model.ts). -/
def COST_PER_REQUEST : ℚ := 2 / 10000

/-- `HEARTBEAT_TIMEOUT_MS = 2 * 60 * 1000` (model.ts). -/
def HEARTBEAT_TIMEOUT_MS : Nat := 2 * 60 * 1000

/-- `SETTLEMENT_INTERVAL_MS = 10 * 60 * 1000` (model.ts). -/
def SETTLEMENT_INTERVAL_MS : Nat := 10 * 60 * 1000

/-- Watch session blob stored in Redis (interface `WatchSession`). -/
structure WatchSession where
  userId : String
  videoId : String
  creatorId : String
  startTime : Nat
  lastSettlementTime : Nat
  totalRequests : Nat
  deriving DecidableEq, Repr

/-- Durable creator row: accumulated watch time and earnings. -/
structure CreatorRec where
  watchTime : ℚ
  amountEarned : ℚ
  deriving DecidableEq, Repr

/-- Result of `deductForRequest`. -/
structure DeductResult where
  success : Bool
  newPendingDeduction : ℚ
  error : Option String
  deriving DecidableEq, Repr

/-- `SettlementResult` (model.ts). -/
structure SettlementResult where
  userId : String
  creatorId : String
  amountSettled : ℚ
  watchTimeSettled : ℚ
  success : Bool
  error : Option String
  deriving DecidableEq, Repr

/-- Result of `startSession`. -/
structure SessionStartResult where
  success : Bool
  session : Option WatchSession
  error : Option String
  deriving DecidableEq, Repr

/-- Result of `updateHeartbeat`. -/
structure HeartbeatResult where
  success : Bool
  session : Option WatchSession
  shouldSettle : Bool
  error : Option String
  deriving DecidableEq, Repr

/-- Combined Fast-Ledger (Redis) + Durable-Ledger (Postgres) state.
`pending` is the per-user PendingDeduction counter, `pendingWT` the
per-creator PendingWatchTime counter; `catalog` is the read-only video
catalog (`videoService.findByVideoId`), mapping a videoId to its creatorId. -/
structure St where
  pending : String → ℚ
  pendingWT : String → ℚ
  session : String → Option WatchSession
  heartbeat : String → Option Nat
  active : String → Bool
  balance : String → Option ℚ
  creators : String → Option CreatorRec
  catalog : String → Option String

/-- `BillingService.deductForRequest`: atomically `INCRBYFLOAT` the pending
counter, then validate against the durable balance, reverting the increment
(relative atomic decrement) on "User not found" or "Insufficient balance". -/
def deductForRequest (st : St) (userId : String) : St × DeductResult :=
  let newPending := st.pending userId + COST_PER_REQUEST
  let st1 : St := { st with pending := fun x => if x = userId then newPending else st.pending x }
  match st1.balance userId with
  | none =>
      let st2 : St := { st1 with pending := fun x => if x = userId then st1.pending userId - COST_PER_REQUEST else st1.pending x }
      (st2, { success := false
              newPendingDeduction := newPending - COST_PER_REQUEST
              error := some "User not found" })
  | some balance =>
      if balance - newPending < 0 then
        let st2 : St := { st1 with pending := fun x => if x = userId then st1.pending userId - COST_PER_REQUEST else st1.pending x }
        (st2, { success := false
                newPendingDeduction := newPending - COST_PER_REQUEST
                error := some "Insufficient balance" })
      else
        (st1, { success := true, newPendingDeduction := newPending, error := none })

/-- `BillingService.startSession`: resolve the creator from the catalog;
on success store a fresh session, record the heartbeat and add the user to
the active-session set. -/
def startSession (st : St) (userId videoId : String) (now : Nat) :
    St × SessionStartResult :=
  match st.catalog videoId with
  | none => (st, { success := false, session := none, error := some "Video not found" })
  | some creatorId =>
      let s : WatchSession :=
        { userId := userId, videoId := videoId, creatorId := creatorId
          startTime := now, lastSettlementTime := now, totalRequests := 0 }
      let st1 : St :=
        { st with
          session := fun x => if x = userId then some s else st.session x
          heartbeat := fun x => if x = userId then some now else st.heartbeat x
          active := fun x => if x = userId then true else st.active x }
      (st1, { success := true, session := some s, error := none })

/-- `BillingService.addCreatorWatchTime`: `INCRBYFLOAT` on the creator's
pending-watch-time counter. -/
def addCreatorWatchTime (st : St) (creatorId : String) (seconds : ℚ) : St :=
  { st with pendingWT := fun x => if x = creatorId then st.pendingWT x + seconds else st.pendingWT x }

/-- `BillingService.incrementRequestCount`: best-effort counter bump on the
session blob. -/
def incrementRequestCount (st : St) (userId : String) : St :=
  match st.session userId with
  | none => st
  | some s =>
      { st with session := fun x => if x = userId then some { s with totalRequests := s.totalRequests + 1 } else st.session x }

/-- Read phase of `settleToDatabase`: the two `redis.get`s of the pending
deduction and the pending watch time. -/
def settleRead (st : St) (userId creatorId : String) : ℚ × ℚ :=
  (st.pending userId, st.pendingWT creatorId)

/-- The Prisma `$transaction` body of `settleToDatabase`: decrement the
user's balance by `pendingDeduction` when positive, and increment the
creator's watch time and earnings when `pendingWatchTime` is positive.
Returns `none` when the transaction throws (missing row, or external
failure signalled by `txOk = false`); a thrown transaction applies nothing. -/
def runTransaction (st : St) (userId creatorId : String)
    (pendingDeduction pendingWatchTime : ℚ) (txOk : Bool) : Option St :=
  if txOk = false then none
  else
    let afterUser : Option St :=
      if 0 < pendingDeduction then
        match st.balance userId with
        | none => none
        | some b =>
            some { st with balance := fun x => if x = userId then some (b - pendingDeduction) else st.balance x }
      else some st
    match afterUser with
    | none => none
    | some st1 =>
        if 0 < pendingWatchTime then
          match st1.creators creatorId with
          | none => none
          | some c =>
              let c1 : CreatorRec :=
                { watchTime := c.watchTime + pendingWatchTime
                  amountEarned := c.amountEarned + pendingDeduction }
              some { st1 with creators := fun x => if x = creatorId then some c1 else st1.creators x }
        else some st1

/-- Commit phase of `settleToDatabase`, applied to previously read values:
zero-check early return, durable transaction, then on success `SET` both
Fast-Ledger counters to `"0"` and refresh the session's
`lastSettlementTime`; on a thrown transaction return a failed
`SettlementResult` with the state untouched. -/
def settleCommit (st : St) (userId creatorId : String)
    (pendingDeduction pendingWatchTime : ℚ) (now : Nat) (txOk : Bool) :
    St × SettlementResult :=
  if pendingDeduction = 0 ∧ pendingWatchTime = 0 then
    (st, { userId := userId, creatorId := creatorId
           amountSettled := 0, watchTimeSettled := 0, success := true, error := none })
  else
    match runTransaction st userId creatorId pendingDeduction pendingWatchTime txOk with
    | none =>
        (st, { userId := userId, creatorId := creatorId
               amountSettled := 0, watchTimeSettled := 0, success := false
               error := some "Settlement failed" })
    | some st1 =>
        let st2 : St :=
          { st1 with
            pending := fun x => if x = userId then 0 else st1.pending x
            pendingWT := fun x => if x = creatorId then 0 else st1.pendingWT x }
        let st3 : St :=
          match st2.session userId with
          | none => st2
          | some s =>
              { st2 with session := fun x => if x = userId then some { s with lastSettlementTime := now } else st2.session x }
        (st3, { userId := userId, creatorId := creatorId
                amountSettled := pendingDeduction, watchTimeSettled := pendingWatchTime
                success := true, error := none })

/-- `BillingService.settleToDatabase`: read phase followed immediately by
the commit phase (the sequential, non-interleaved execution). -/
def settleToDatabase (st : St) (userId creatorId : String) (now : Nat) (txOk : Bool) :
    St × SettlementResult :=
  let dw := settleRead st userId creatorId
  settleCommit st userId creatorId dw.1 dw.2 now txOk

/-- `BillingService.endSession`: no-op on a missing session; otherwise add
the wall-clock watch time since `lastSettlementTime` to the creator's
pending watch time, settle, and remove session, heartbeat and active-set
membership regardless of the settlement outcome. -/
def endSession (st : St) (userId : String) (now : Nat) (txOk : Bool) :
    St × Option SettlementResult :=
  match st.session userId with
  | none => (st, none)
  | some s =>
      let watchTimeSeconds : ℚ := ((now : ℚ) - (s.lastSettlementTime : ℚ)) / 1000
      let st1 := if 0 < watchTimeSeconds then addCreatorWatchTime st s.creatorId watchTimeSeconds else st
      let p := settleToDatabase st1 userId s.creatorId now txOk
      let st3 : St :=
        { p.1 with
          session := fun x => if x = userId then none else p.1.session x
          heartbeat := fun x => if x = userId then none else p.1.heartbeat x
          active := fun x => if x = userId then false else p.1.active x }
      (st3, some p.2)

/-- `BillingService.updateHeartbeat`: auto-start when no session exists;
force end-then-start on a video switch; otherwise refresh the heartbeat and
report whether the 10-minute settlement period has elapsed. -/
def updateHeartbeat (st : St) (userId videoId : String) (now : Nat) (txOk : Bool) :
    St × HeartbeatResult :=
  match st.session userId with
  | none =>
      let p := startSession st userId videoId now
      if p.2.success then
        (p.1, { success := true, session := p.2.session, shouldSettle := false, error := none })
      else
        (p.1, { success := false, session := none, shouldSettle := false, error := p.2.error })
  | some s =>
      if s.videoId ≠ videoId then
        let q := endSession st userId now txOk
        let p := startSession q.1 userId videoId now
        if p.2.success then
          (p.1, { success := true, session := p.2.session, shouldSettle := false, error := none })
        else
          (p.1, { success := false, session := none, shouldSettle := false, error := p.2.error })
      else
        let st1 : St := { st with heartbeat := fun x => if x = userId then some now else st.heartbeat x }
        (st1, { success := true, session := some s
                shouldSettle := decide ((SETTLEMENT_INTERVAL_MS : ℤ) ≤ (now : ℤ) - (s.lastSettlementTime : ℤ))
                error := none })

/-- `BillingService.isSessionStale`: stale when the heartbeat key is absent
or older than `HEARTBEAT_TIMEOUT_MS`. -/
def isSessionStale (st : St) (userId : String) (now : Nat) : Bool :=
  match st.heartbeat userId with
  | none => true
  | some t => decide ((HEARTBEAT_TIMEOUT_MS : ℤ) < (now : ℤ) - (t : ℤ))

/-- `BillingService.processStaleSession`: end the session when stale,
otherwise do nothing. -/
def processStaleSession (st : St) (userId : String) (now : Nat) (txOk : Bool) :
    St × Option SettlementResult :=
  if isSessionStale st userId now then endSession st userId now txOk
  else (st, none)

/-! ## Example states used by witnesses and counterexamples -/

/-- Empty ledger: no pending amounts, no sessions, no users, no creators. -/
def stEmpty : St :=
  { pending := fun _ => 0, pendingWT := fun _ => 0, session := fun _ => none,
    heartbeat := fun _ => none, active := fun _ => false,
    balance := fun _ => none, creators := fun _ => none, catalog := fun _ => none }

/-- One user `"u"` with durable balance 1. -/
def stOneUser : St := { stEmpty with balance := fun x => if x = "u" then some 1 else none }

/-! C5 counterexample state: user `"u"` owes 5 pending, creator `"c"` has
no pending watch time. -/

/-- Pending deduction 5 for `"u"`, zero pending watch time for `"c"`. -/
def stDeductOnly : St :=
  { stEmpty with
    pending := fun x => if x = "u" then 5 else 0
    balance := fun x => if x = "u" then some 100 else none
    creators := fun x => if x = "c" then some { watchTime := 0, amountEarned := 0 } else none }

/-- A charge admitted in the window between a settlement's counter read and
its commit: the settlement's read phase runs, then a full
`deductForRequest`, then the settlement's commit phase with the previously
read values — a schedule the code permits because every Redis and database
call is an `await` suspension point. -/
def settleRaceRun (st : St) (u c : String) (now : Nat) :
    St × DeductResult × SettlementResult :=
  let dw := settleRead st u c
  let p := deductForRequest st u
  let q := settleCommit p.1 u c dw.1 dw.2 now true
  (q.1, p.2, q.2)

/-- Race scenario start state: user `"u"` with pending deduction 0.001 and
durable balance 1. -/
def stRace : St :=
  { stEmpty with
    pending := fun x => if x = "u" then 1 / 1000 else 0
    balance := fun x => if x = "u" then some 1 else none }

/-- Stale-session scenario: `"u"` watching video `"A"` of creator `"c"`;
session started and last settled at `t = 0` ms, last heartbeat written at
`t = 60000` ms, then heartbeats stop. -/
def stStale : St :=
  { stEmpty with
    session := fun x => if x = "u" then
        some { userId := "u", videoId := "A", creatorId := "c",
               startTime := 0, lastSettlementTime := 0, totalRequests := 0 }
      else none
    heartbeat := fun x => if x = "u" then some 60000 else none
    active := fun x => if x = "u" then true else false
    balance := fun x => if x = "u" then some 10 else none
    creators := fun x => if x = "c" then some { watchTime := 0, amountEarned := 0 } else none }

/-- One invocation of a public billing operation, with its time and
transaction-outcome parameters. -/
inductive Op where
  | charge (u : String)
  | settle (u c : String) (now : Nat) (txOk : Bool)
  | start (u v : String) (now : Nat)
  | beat (u v : String) (now : Nat) (txOk : Bool)
  | finish (u : String) (now : Nat) (txOk : Bool)
  | reap (u : String) (now : Nat) (txOk : Bool)
  | bump (u : String)

/-- The state transition of one completed operation. -/
def applyOp (st : St) : Op → St
  | Op.charge u => (deductForRequest st u).1
  | Op.settle u c now txOk => (settleToDatabase st u c now txOk).1
  | Op.start u v now => (startSession st u v now).1
  | Op.beat u v now txOk => (updateHeartbeat st u v now txOk).1
  | Op.finish u now txOk => (endSession st u now txOk).1
  | Op.reap u now txOk => (processStaleSession st u now txOk).1
  | Op.bump u => incrementRequestCount st u

/-- Run a sequence of operations from a start state. -/
def runOps (st : St) (ops : List Op) : St := ops.foldl applyOp st

/-- Every per-user pending-deduction counter is non-negative. -/
def pendingNonneg (st : St) : Prop := ∀ u, 0 ≤ st.pending u

/-- Two-video catalog for the C7 witness: videos `"A"`, `"B"` by creators
`"cA"`, `"cB"`, user `"u"` with balance 10. -/
def stTwoVideos : St :=
  { stEmpty with
    catalog := fun x => if x = "A" then some "cA" else if x = "B" then some "cB" else none
    creators := fun x => if x = "cA" then some { watchTime := 0, amountEarned := 0 }
      else if x = "cB" then some { watchTime := 0, amountEarned := 0 } else none
    balance := fun x => if x = "u" then some 10 else none }

/-! ## Theorems -/

/-- C1: `deductForRequest` first increments the pending counter by the unit
cost; when the balance lookup fails or the effective balance would go
negative it decrements it back (leaving the stored counter unchanged
overall) and returns not-admitted with "User not found" resp. "Insufficient
balance"; otherwise it returns admitted with the new pending total. -/
theorem deductForRequest_correct (st : St) (u : String) :
    (st.balance u = none →
      (deductForRequest st u).2.success = false ∧
      (deductForRequest st u).2.error = some "User not found" ∧
      (deductForRequest st u).1.pending = st.pending) ∧
    (∀ b : ℚ, st.balance u = some b → b - (st.pending u + COST_PER_REQUEST) < 0 →
      (deductForRequest st u).2.success = false ∧
      (deductForRequest st u).2.error = some "Insufficient balance" ∧
      (deductForRequest st u).1.pending = st.pending) ∧
    (∀ b : ℚ, st.balance u = some b → ¬ b - (st.pending u + COST_PER_REQUEST) < 0 →
      (deductForRequest st u).2.success = true ∧
      (deductForRequest st u).2.newPendingDeduction = st.pending u + COST_PER_REQUEST ∧
      (deductForRequest st u).1.pending u = st.pending u + COST_PER_REQUEST) := by
  refine ⟨?_, ?_, ?_⟩
  · intro h
    simp only [deductForRequest, h]
    refine ⟨by trivial, by trivial, ?_⟩
    funext x
    by_cases hx : x = u <;> simp [hx]
  · intro b hb hneg
    simp only [deductForRequest, hb]
    rw [if_pos hneg]
    refine ⟨by trivial, by trivial, ?_⟩
    funext x
    by_cases hx : x = u <;> simp [hx]
  · intro b hb hpos
    simp only [deductForRequest, hb]
    rw [if_neg hpos]
    exact ⟨by trivial, by trivial, by simp⟩

/-- C1 witness: for a user with balance 1 and empty pending counter the
charge of 0.0002 is admitted with new pending total 0.0002. -/
theorem deductForRequest_correct_witness :
    (deductForRequest stOneUser "u").2.success = true ∧
    (deductForRequest stOneUser "u").2.newPendingDeduction = COST_PER_REQUEST := by
  have h := (deductForRequest_correct stOneUser "u").2.2 1 (by simp [stOneUser, stEmpty])
    (by simp [stOneUser, stEmpty, COST_PER_REQUEST]; norm_num)
  refine ⟨h.1, ?_⟩
  rw [h.2.1]
  simp [stOneUser, stEmpty]

/-- Failure characterization of `settleToDatabase`: an unsuccessful
settlement returns the input state unchanged together with the caught
error message. -/
theorem settle_fail_eq (st : St) (u c : String) (now : Nat) (txOk : Bool)
    (h : (settleToDatabase st u c now txOk).2.success = false) :
    (settleToDatabase st u c now txOk).1 = st ∧
    (settleToDatabase st u c now txOk).2.error = some "Settlement failed" := by
  simp only [settleToDatabase, settleRead, settleCommit] at h ⊢
  by_cases h0 : st.pending u = 0 ∧ st.pendingWT c = 0
  · rw [if_pos h0] at h
    simp at h
  · rw [if_neg h0] at h ⊢
    cases htx : runTransaction st u c (st.pending u) (st.pendingWT c) txOk with
    | none => simp [htx]
    | some st1 => rw [htx] at h; simp at h

/-- C4: when the settlement's durable transaction fails, `settleToDatabase`
leaves the whole state (Fast-Ledger counters and session, hence
`lastSettlementTime`) untouched and returns a failed `SettlementResult`
carrying an error message instead of raising. -/
theorem settleToDatabase_failure_atomic (st : St) (u c : String) (now : Nat) (txOk : Bool)
    (h : (settleToDatabase st u c now txOk).2.success = false) :
    (settleToDatabase st u c now txOk).1 = st ∧
    (settleToDatabase st u c now txOk).2.error = some "Settlement failed" ∧
    (settleToDatabase st u c now txOk).1.pending u = st.pending u ∧
    (settleToDatabase st u c now txOk).1.pendingWT c = st.pendingWT c ∧
    (settleToDatabase st u c now txOk).1.session u = st.session u := by
  obtain ⟨h1, h2⟩ := settle_fail_eq st u c now txOk h
  exact ⟨h1, h2, by rw [h1], by rw [h1], by rw [h1]⟩

/-- C4 witness: settling a nonzero pending amount with the durable store
unreachable (`txOk = false`) fails and changes nothing. -/
theorem settleToDatabase_failure_atomic_witness :
    (settleToDatabase { stOneUser with pending := fun x => if x = "u" then 5 else 0 }
      "u" "c" 0 false).1 = { stOneUser with pending := fun x => if x = "u" then 5 else 0 } ∧
    (settleToDatabase { stOneUser with pending := fun x => if x = "u" then 5 else 0 }
      "u" "c" 0 false).2.error = some "Settlement failed" := by
  have h := settleToDatabase_failure_atomic
    { stOneUser with pending := fun x => if x = "u" then 5 else 0 } "u" "c" 0 false
    (by simp [settleToDatabase, settleRead, settleCommit, runTransaction])
  exact ⟨h.1, h.2.1⟩

/-- The durable transaction only writes durable rows: every Fast-Ledger
field of the state is unchanged by a committed `runTransaction`. -/
theorem runTransaction_frame (st : St) (u c : String) (d w : ℚ) (tx : Bool) (st1 : St)
    (h : runTransaction st u c d w tx = some st1) :
    st1.pending = st.pending ∧ st1.pendingWT = st.pendingWT ∧
    st1.session = st.session ∧ st1.heartbeat = st.heartbeat ∧
    st1.active = st.active ∧ st1.catalog = st.catalog := by
  simp only [runTransaction] at h
  by_cases htx : tx = false
  · rw [if_pos htx] at h; simp at h
  · rw [if_neg htx] at h
    by_cases hd : 0 < d
    · rw [if_pos hd] at h
      cases hb : st.balance u with
      | none => rw [hb] at h; simp at h
      | some b =>
          rw [hb] at h
          simp only [] at h
          by_cases hw : 0 < w
          · rw [if_pos hw] at h
            cases hc : st.creators c with
            | none => simp [hc] at h
            | some cr =>
                simp only [hc, Option.some.injEq] at h
                subst h
                exact ⟨rfl, rfl, rfl, rfl, rfl, rfl⟩
          · rw [if_neg hw] at h
            simp only [Option.some.injEq] at h
            subst h
            exact ⟨rfl, rfl, rfl, rfl, rfl, rfl⟩
    · rw [if_neg hd] at h
      simp only [] at h
      by_cases hw : 0 < w
      · rw [if_pos hw] at h
        cases hc : st.creators c with
        | none => simp [hc] at h
        | some cr =>
            simp only [hc, Option.some.injEq] at h
            subst h
            exact ⟨rfl, rfl, rfl, rfl, rfl, rfl⟩
      · rw [if_neg hw] at h
        simp only [Option.some.injEq] at h
        subst h
        exact ⟨rfl, rfl, rfl, rfl, rfl, rfl⟩

/-- A successful settlement leaves both Fast-Ledger counters of the settled
pair at zero (either they already were zero, or they were reset). -/
theorem settle_success_counters (st : St) (u c : String) (now : Nat) (txOk : Bool)
    (h : (settleToDatabase st u c now txOk).2.success = true) :
    (settleToDatabase st u c now txOk).1.pending u = 0 ∧
    (settleToDatabase st u c now txOk).1.pendingWT c = 0 := by
  simp only [settleToDatabase, settleRead, settleCommit] at h ⊢
  by_cases h0 : st.pending u = 0 ∧ st.pendingWT c = 0
  · rw [if_pos h0]
    exact h0
  · rw [if_neg h0] at h ⊢
    cases htx : runTransaction st u c (st.pending u) (st.pendingWT c) txOk with
    | none => rw [htx] at h; simp at h
    | some st1 => cases hs : st1.session u <;> simp [hs]

/-- C3: settlement is idempotent.  If a `settleToDatabase` call succeeds,
an immediately repeated call (no intervening charges or watch-time accrual)
returns `amountSettled = 0`, `watchTimeSettled = 0`, `success = true`, and
leaves the state — in particular the durable balance and the creator
earnings — exactly as the first call left it. -/
theorem settleToDatabase_idempotent (st : St) (u c : String) (n1 n2 : Nat) (tx1 tx2 : Bool)
    (h : (settleToDatabase st u c n1 tx1).2.success = true) :
    (settleToDatabase (settleToDatabase st u c n1 tx1).1 u c n2 tx2).2.amountSettled = 0 ∧
    (settleToDatabase (settleToDatabase st u c n1 tx1).1 u c n2 tx2).2.watchTimeSettled = 0 ∧
    (settleToDatabase (settleToDatabase st u c n1 tx1).1 u c n2 tx2).2.success = true ∧
    (settleToDatabase (settleToDatabase st u c n1 tx1).1 u c n2 tx2).1 =
      (settleToDatabase st u c n1 tx1).1 := by
  obtain ⟨hp, hw⟩ := settle_success_counters st u c n1 tx1 h
  generalize hst1 : (settleToDatabase st u c n1 tx1).1 = st1 at hp hw ⊢
  simp [settleToDatabase, settleRead, settleCommit, hp, hw]

/-- C3 witness: settling 5 pending for `"u"` succeeds, and the repeated
settlement is a success with nothing settled and an unchanged state. -/
theorem settleToDatabase_idempotent_witness :
    (settleToDatabase (settleToDatabase
        { stOneUser with pending := fun x => if x = "u" then 1 / 2 else 0 }
        "u" "c" 0 true).1 "u" "c" 7 true).2.amountSettled = 0 ∧
    (settleToDatabase (settleToDatabase
        { stOneUser with pending := fun x => if x = "u" then 1 / 2 else 0 }
        "u" "c" 0 true).1 "u" "c" 7 true).2.success = true := by
  have h := settleToDatabase_idempotent
    { stOneUser with pending := fun x => if x = "u" then 1 / 2 else 0 }
    "u" "c" 0 7 true true
    (by simp [settleToDatabase, settleRead, settleCommit, runTransaction, stOneUser, stEmpty])
  exact ⟨h.1, h.2.2.1⟩

/-- C5 counterexample: with pending deduction `D = 5 > 0` and pending watch
time `W = 0`, the settlement succeeds and decrements the balance by 5, but
the creator's earnings do **not** increase by `D` — the creator row is
untouched because the earnings update is guarded by `W > 0`. -/
theorem settle_earnings_skipped_when_no_watchtime :
    (settleToDatabase stDeductOnly "u" "c" 0 true).2.success = true ∧
    (settleToDatabase stDeductOnly "u" "c" 0 true).2.amountSettled = 5 ∧
    (settleToDatabase stDeductOnly "u" "c" 0 true).1.balance "u" = some 95 ∧
    stDeductOnly.creators "c" = some { watchTime := 0, amountEarned := 0 } ∧
    (settleToDatabase stDeductOnly "u" "c" 0 true).1.creators "c" =
      some { watchTime := 0, amountEarned := 0 } ∧
    (0 : ℚ) ≠ 0 + 5 := by
  refine ⟨?_, ?_, ?_, ?_, ?_, by norm_num⟩ <;>
    norm_num [settleToDatabase, settleRead, settleCommit, runTransaction, stDeductOnly, stEmpty]

/-- C5 (amended): for a settlement with pending deduction `D > 0`, the
single durable transaction decrements the user's balance by `D`; the
creator's earnings increase by exactly `D` (1:1, no platform fee) and the
creator's watch time by `W` **only when `W > 0`** — when `W ≤ 0` the
creator row (earnings included) is left unchanged even though `D > 0`. -/
theorem settle_transfer_amounts (st : St) (u c : String) (now : Nat)
    (b : ℚ) (hb : st.balance u = some b) (cr : CreatorRec) (hc : st.creators c = some cr)
    (hD : 0 < st.pending u) :
    (settleToDatabase st u c now true).2.success = true ∧
    (settleToDatabase st u c now true).1.balance u = some (b - st.pending u) ∧
    (0 < st.pendingWT c →
      (settleToDatabase st u c now true).1.creators c =
        some { watchTime := cr.watchTime + st.pendingWT c
               amountEarned := cr.amountEarned + st.pending u }) ∧
    (¬ 0 < st.pendingWT c →
      (settleToDatabase st u c now true).1.creators = st.creators) := by
  have h0 : ¬ (st.pending u = 0 ∧ st.pendingWT c = 0) := by
    intro hcon
    exact absurd hD (by rw [hcon.1]; exact lt_irrefl 0)
  by_cases hW : 0 < st.pendingWT c
  · simp only [settleToDatabase, settleRead, settleCommit, runTransaction,
      if_neg h0, if_pos hD, if_pos hW, hb, hc]
    simp only [Bool.true_eq_false, if_false]
    cases hs : st.session u <;> simp [hW, Ne.symm (ne_of_gt hD)]
  · simp only [settleToDatabase, settleRead, settleCommit, runTransaction,
      if_neg h0, if_pos hD, if_neg hW, hb]
    simp only [Bool.true_eq_false, if_false]
    cases hs : st.session u <;> simp [hW]

/-- C5 witness: with `D = 5`, `W = 7`, balance 100 and a zeroed creator
row, settlement yields balance 95, watch time 7 and earnings 5. -/
theorem settle_transfer_amounts_witness :
    (settleToDatabase
      { stDeductOnly with pendingWT := fun x => if x = "c" then 7 else 0 }
      "u" "c" 0 true).1.balance "u" = some 95 ∧
    (settleToDatabase
      { stDeductOnly with pendingWT := fun x => if x = "c" then 7 else 0 }
      "u" "c" 0 true).1.creators "c" = some { watchTime := 7, amountEarned := 5 } := by
  have h := settle_transfer_amounts
    { stDeductOnly with pendingWT := fun x => if x = "c" then 7 else 0 }
    "u" "c" 0 100 (by simp [stDeductOnly, stEmpty]) { watchTime := 0, amountEarned := 0 }
    (by simp [stDeductOnly, stEmpty]) (by simp [stDeductOnly, stEmpty])
  have h2 := h.2.2.1 (by simp [stDeductOnly, stEmpty])
  have h1 := h.2.1
  norm_num [stDeductOnly, stEmpty] at h1 h2
  exact ⟨h1, h2⟩

/-! ## C2: the settlement read/commit race -/

/-- C2 (code bug): a charge admitted between the settlement's counter read
and its counter reset is discarded.  The settlement reads 0.001 and commits
it; meanwhile a charge is admitted, leaving the counter at
`0.001 + COST_PER_REQUEST` at reset time; the commit then `SET`s the
counter to `0`, although the claim requires it to equal
`(0.001 + COST_PER_REQUEST) - 0.001 = COST_PER_REQUEST ≠ 0` so that the
concurrent charge is kept for the next settlement. -/
theorem settle_race_discards_concurrent_charge :
    (settleRaceRun stRace "u" "c" 0).2.1.success = true ∧
    (settleRaceRun stRace "u" "c" 0).2.2.success = true ∧
    (settleRaceRun stRace "u" "c" 0).2.2.amountSettled = 1 / 1000 ∧
    (deductForRequest stRace "u").1.pending "u" = 1 / 1000 + COST_PER_REQUEST ∧
    (settleRaceRun stRace "u" "c" 0).1.pending "u" = 0 ∧
    (1 / 1000 + COST_PER_REQUEST) - 1 / 1000 ≠ (0 : ℚ) := by
  refine ⟨?_, ?_, ?_, ?_, ?_, by norm_num [COST_PER_REQUEST]⟩ <;>
    norm_num [settleRaceRun, settleRead, settleCommit, runTransaction, deductForRequest,
      COST_PER_REQUEST, stRace, stEmpty]

/-! ## C6: stale-session watch-time attribution -/

/-- C6 (code bug): the reaper wakes at `t = 210000` ms (the session is
stale: 150 s > 2 min since the heartbeat at 60000), settles and removes the
session — but the watch time credited to the creator is 210 s, measured up
to the reaper's own wall-clock `now`, not the 60 s up to the last
heartbeat that the claim requires. -/
theorem stale_session_credits_reaper_walltime :
    isSessionStale stStale "u" 210000 = true ∧
    (processStaleSession stStale "u" 210000 true).1.session "u" = none ∧
    (processStaleSession stStale "u" 210000 true).1.heartbeat "u" = none ∧
    (processStaleSession stStale "u" 210000 true).1.active "u" = false ∧
    (processStaleSession stStale "u" 210000 true).1.creators "c" =
      some { watchTime := 210, amountEarned := 0 } ∧
    ((60000 : ℚ) - 0) / 1000 = 60 ∧
    (210 : ℚ) ≠ 60 := by
  refine ⟨?_, ?_, ?_, ?_, ?_, by norm_num, by norm_num⟩ <;>
    norm_num [processStaleSession, isSessionStale, endSession, addCreatorWatchTime,
      settleToDatabase, settleRead, settleCommit, runTransaction, HEARTBEAT_TIMEOUT_MS,
      stStale, stEmpty]

/-- C8: `endSession` with no session is a no-op returning `null`; with a
session it removes the session blob, the heartbeat key and the active-set
membership whether or not the embedded settlement succeeds, and when the
settlement fails the pending-deduction counter is unchanged and the pending
watch time (including the just-added final interval) is intact for a later
retry. -/
theorem endSession_cleanup (st : St) (u : String) (now : Nat) (txOk : Bool) :
    (st.session u = none → endSession st u now txOk = (st, none)) ∧
    (∀ s : WatchSession, st.session u = some s →
      (endSession st u now txOk).1.session u = none ∧
      (endSession st u now txOk).1.heartbeat u = none ∧
      (endSession st u now txOk).1.active u = false ∧
      ∃ r : SettlementResult, (endSession st u now txOk).2 = some r ∧
        (r.success = false →
          (endSession st u now txOk).1.pending u = st.pending u ∧
          (endSession st u now txOk).1.pendingWT s.creatorId =
            st.pendingWT s.creatorId +
              (if 0 < ((now : ℚ) - (s.lastSettlementTime : ℚ)) / 1000
               then ((now : ℚ) - (s.lastSettlementTime : ℚ)) / 1000 else 0))) := by
  constructor
  · intro h
    simp [endSession, h]
  · intro s hs
    simp only [endSession, hs]
    refine ⟨by simp, by simp, by simp, ?_⟩
    refine ⟨_, rfl, ?_⟩
    intro hfail
    obtain ⟨he, _⟩ := settle_fail_eq _ u s.creatorId now txOk hfail
    rw [he]
    by_cases hw : 0 < ((now : ℚ) - (s.lastSettlementTime : ℚ)) / 1000
    · simp [hw, addCreatorWatchTime]
    · simp [hw]

/-- C8 witness: ending the stale-scenario session with the durable store
down still removes session, heartbeat and active-set membership. -/
theorem endSession_cleanup_witness :
    (endSession stStale "u" 1000 false).1.session "u" = none ∧
    (endSession stStale "u" 1000 false).1.heartbeat "u" = none ∧
    (endSession stStale "u" 1000 false).1.active "u" = false := by
  have h := (endSession_cleanup stStale "u" 1000 false).2
    { userId := "u", videoId := "A", creatorId := "c",
      startTime := 0, lastSettlementTime := 0, totalRequests := 0 }
    (by simp [stStale, stEmpty])
  exact ⟨h.1, h.2.1, h.2.2.1⟩

/-! ## C9: non-negativity of the pending-deduction counter -/

theorem pendingNonneg_deductForRequest (st : St) (h : pendingNonneg st) (u : String) :
    pendingNonneg (deductForRequest st u).1 := by
  intro x
  have hC : (0 : ℚ) ≤ COST_PER_REQUEST := by norm_num [COST_PER_REQUEST]
  simp only [deductForRequest]
  cases hb : st.balance u with
  | none =>
      by_cases hx : x = u
      · simp [hx, h u]
      · simp [hx, h x]
  | some b =>
      by_cases hlt : b - (st.pending u + COST_PER_REQUEST) < 0
      · by_cases hx : x = u
        · simp [hlt, hx, h u]
        · simp [hlt, hx, h x]
      · by_cases hx : x = u
        · simpa [hlt, hx] using add_nonneg (h u) hC
        · simp [hlt, hx, h x]

theorem pendingNonneg_settleToDatabase (st : St) (h : pendingNonneg st)
    (u c : String) (now : Nat) (txOk : Bool) :
    pendingNonneg (settleToDatabase st u c now txOk).1 := by
  intro x
  simp only [settleToDatabase, settleRead, settleCommit]
  by_cases h0 : st.pending u = 0 ∧ st.pendingWT c = 0
  · rw [if_pos h0]
    exact h x
  · rw [if_neg h0]
    cases htx : runTransaction st u c (st.pending u) (st.pendingWT c) txOk with
    | none => exact h x
    | some st1 =>
        obtain ⟨hp, -, -, -, -, -⟩ := runTransaction_frame st u c _ _ _ st1 htx
        cases hs : st1.session u <;> by_cases hx : x = u <;> simp [hs, hx, hp, h x]

theorem pendingNonneg_startSession (st : St) (h : pendingNonneg st)
    (u v : String) (now : Nat) :
    pendingNonneg (startSession st u v now).1 := by
  intro x
  simp only [startSession]
  cases hc : st.catalog v <;> simp [h x]

theorem pendingNonneg_endSession (st : St) (h : pendingNonneg st)
    (u : String) (now : Nat) (txOk : Bool) :
    pendingNonneg (endSession st u now txOk).1 := by
  intro x
  simp only [endSession]
  cases hs : st.session u with
  | none => exact h x
  | some s =>
      have h1 : pendingNonneg (if 0 < ((now : ℚ) - (s.lastSettlementTime : ℚ)) / 1000
          then addCreatorWatchTime st s.creatorId (((now : ℚ) - (s.lastSettlementTime : ℚ)) / 1000)
          else st) := by
        by_cases hw : 0 < ((now : ℚ) - (s.lastSettlementTime : ℚ)) / 1000
        · simpa [hw, addCreatorWatchTime] using h
        · simpa [hw] using h
      have h2 := pendingNonneg_settleToDatabase _ h1 u s.creatorId now txOk
      simpa using h2 x

theorem pendingNonneg_updateHeartbeat (st : St) (h : pendingNonneg st)
    (u v : String) (now : Nat) (txOk : Bool) :
    pendingNonneg (updateHeartbeat st u v now txOk).1 := by
  intro x
  simp only [updateHeartbeat]
  cases hs : st.session u with
  | none =>
      have h1 := pendingNonneg_startSession st h u v now
      by_cases hsucc : (startSession st u v now).2.success = true <;> simp [hsucc, h1 x]
  | some s =>
      by_cases hv : s.videoId = v
      · simp [hv, h x]
      · have h1 := pendingNonneg_endSession st h u now txOk
        have h2 := pendingNonneg_startSession _ h1 u v now
        by_cases hsucc : (startSession (endSession st u now txOk).1 u v now).2.success = true <;>
          simp [hv, hsucc, h2 x]

theorem pendingNonneg_processStaleSession (st : St) (h : pendingNonneg st)
    (u : String) (now : Nat) (txOk : Bool) :
    pendingNonneg (processStaleSession st u now txOk).1 := by
  simp only [processStaleSession]
  by_cases hstale : isSessionStale st u now = true
  · rw [if_pos hstale]
    exact pendingNonneg_endSession st h u now txOk
  · rw [if_neg hstale]
    exact h

theorem pendingNonneg_applyOp (st : St) (h : pendingNonneg st) (op : Op) :
    pendingNonneg (applyOp st op) := by
  cases op with
  | charge u => exact pendingNonneg_deductForRequest st h u
  | settle u c now txOk => exact pendingNonneg_settleToDatabase st h u c now txOk
  | start u v now => exact pendingNonneg_startSession st h u v now
  | beat u v now txOk => exact pendingNonneg_updateHeartbeat st h u v now txOk
  | finish u now txOk => exact pendingNonneg_endSession st h u now txOk
  | reap u now txOk => exact pendingNonneg_processStaleSession st h u now txOk
  | bump u =>
      intro x
      simp only [applyOp]
      cases hs : st.session u <;> simp [incrementRequestCount, hs, h x]

/-- C9: starting from any state whose pending-deduction counters are all
non-negative (in particular from absent counters, which read as 0), after
every sequence of completed operations — admissions whether admitted or
rejected, settlements whether succeeded or failed, session start,
heartbeat, end, staleness reaping and request counting — every per-user
pending-deduction counter is still non-negative. -/
theorem pending_nonneg_invariant (ops : List Op) (st : St) (h : pendingNonneg st) :
    pendingNonneg (runOps st ops) := by
  induction ops generalizing st with
  | nil => exact h
  | cons op rest ih =>
      simp only [runOps, List.foldl]
      exact ih (applyOp st op) (pendingNonneg_applyOp st h op)

/-- C9 witness: a concrete run — an admitted charge, a successful
settlement and a failing session end — leaves the counter non-negative. -/
theorem pending_nonneg_invariant_witness :
    0 ≤ (runOps stOneUser
      [Op.charge "u", Op.settle "u" "c" 3 true, Op.finish "u" 9 false]).pending "u" :=
  pending_nonneg_invariant
    [Op.charge "u", Op.settle "u" "c" 3 true, Op.finish "u" 9 false]
    stOneUser (fun _ => le_refl 0) "u"

/-! ## C10: heartbeat with an unknown video on an active session -/

/-- The durable transaction commits whenever the rows it touches exist. -/
theorem runTransaction_ok (st : St) (u c : String) (d w : ℚ)
    (hbal : 0 < d → (st.balance u).isSome) (hcr : 0 < w → (st.creators c).isSome) :
    ∃ st1, runTransaction st u c d w true = some st1 := by
  simp only [runTransaction]
  by_cases hD : 0 < d
  · obtain ⟨b, hb⟩ := Option.isSome_iff_exists.mp (hbal hD)
    by_cases hW : 0 < w
    · obtain ⟨cr, hc⟩ := Option.isSome_iff_exists.mp (hcr hW)
      simp [hD, hW, hb, hc]
    · simp [hD, hW, hb]
  · by_cases hW : 0 < w
    · obtain ⟨cr, hc⟩ := Option.isSome_iff_exists.mp (hcr hW)
      simp [hD, hW, hc]
    · simp [hD, hW]

/-- When the user and creator rows exist, a settlement with a working
durable store succeeds and leaves the user's pending counter at zero. -/
theorem settle_pending_zero (st : St) (u c : String) (now : Nat)
    (hbal : (st.balance u).isSome) (hcr : (st.creators c).isSome) :
    (settleToDatabase st u c now true).2.success = true ∧
    (settleToDatabase st u c now true).1.pending u = 0 := by
  simp only [settleToDatabase, settleRead, settleCommit]
  by_cases h0 : st.pending u = 0 ∧ st.pendingWT c = 0
  · rw [if_pos h0]
    exact ⟨rfl, h0.1⟩
  · rw [if_neg h0]
    obtain ⟨st1, htx⟩ := runTransaction_ok st u c (st.pending u) (st.pendingWT c)
      (fun _ => hbal) (fun _ => hcr)
    rw [htx]
    cases hs : st1.session u <;> simp [hs]

/-- Settlement never touches the video catalog. -/
theorem settle_frame_catalog (st : St) (u c : String) (now : Nat) (tx : Bool) :
    (settleToDatabase st u c now tx).1.catalog = st.catalog := by
  simp only [settleToDatabase, settleRead, settleCommit]
  by_cases h0 : st.pending u = 0 ∧ st.pendingWT c = 0
  · rw [if_pos h0]
  · rw [if_neg h0]
    cases htx : runTransaction st u c (st.pending u) (st.pendingWT c) tx with
    | none => rfl
    | some st1 =>
        obtain ⟨-, -, -, -, -, hcat⟩ := runTransaction_frame st u c _ _ _ st1 htx
        cases hs : st1.session u <;> simp [hs, hcat]

/-- Ending a session never touches the video catalog. -/
theorem endSession_frame_catalog (st : St) (u : String) (now : Nat) (tx : Bool) :
    (endSession st u now tx).1.catalog = st.catalog := by
  simp only [endSession]
  cases hs : st.session u with
  | none => rfl
  | some s =>
      by_cases hw : 0 < ((now : ℚ) - (s.lastSettlementTime : ℚ)) / 1000 <;>
        simp [hw, settle_frame_catalog, addCreatorWatchTime]

/-- `endSession` on an existing session with working durable store and
existing user/creator rows: the session, heartbeat and active-set entries
are removed and the pending-deduction counter is settled down to zero. -/
theorem endSession_state (st : St) (u : String) (now : Nat) (s : WatchSession)
    (hs : st.session u = some s) (hbal : (st.balance u).isSome)
    (hcr : (st.creators s.creatorId).isSome) :
    (endSession st u now true).1.pending u = 0 ∧
    (endSession st u now true).1.session u = none ∧
    (endSession st u now true).1.heartbeat u = none ∧
    (endSession st u now true).1.active u = false := by
  simp only [endSession, hs]
  refine ⟨?_, by simp, by simp, by simp⟩
  by_cases hw : 0 < ((now : ℚ) - (s.lastSettlementTime : ℚ)) / 1000
  · have hb2 : ((addCreatorWatchTime st s.creatorId
        (((now : ℚ) - (s.lastSettlementTime : ℚ)) / 1000)).balance u).isSome := hbal
    have hc2 : ((addCreatorWatchTime st s.creatorId
        (((now : ℚ) - (s.lastSettlementTime : ℚ)) / 1000)).creators s.creatorId).isSome := hcr
    have hz := (settle_pending_zero (addCreatorWatchTime st s.creatorId
        (((now : ℚ) - (s.lastSettlementTime : ℚ)) / 1000)) u s.creatorId now hb2 hc2).2
    simpa [hw] using hz
  · have hz := (settle_pending_zero st u s.creatorId now hbal hcr).2
    simpa [hw] using hz

/-- C10: a heartbeat carrying a videoId that differs from the active
session's video and is not in the catalog returns failure with
"Video not found", and as a side effect has already ended the prior
session: the session blob, heartbeat key and active-set membership are
gone, the pending amounts were settled (counter at zero), and the user is
left with no active session. -/
theorem heartbeat_unknown_video_ends_session (st : St) (u vB : String) (now : Nat)
    (s : WatchSession) (hs : st.session u = some s) (hv : s.videoId ≠ vB)
    (hcat : st.catalog vB = none)
    (hbal : (st.balance u).isSome) (hcr : (st.creators s.creatorId).isSome) :
    (updateHeartbeat st u vB now true).2.success = false ∧
    (updateHeartbeat st u vB now true).2.error = some "Video not found" ∧
    (updateHeartbeat st u vB now true).1.session u = none ∧
    (updateHeartbeat st u vB now true).1.heartbeat u = none ∧
    (updateHeartbeat st u vB now true).1.active u = false ∧
    (updateHeartbeat st u vB now true).1.pending u = 0 := by
  have hE := endSession_state st u now s hs hbal hcr
  have hcatq := endSession_frame_catalog st u now true
  have hstart : startSession (endSession st u now true).1 u vB now =
      ((endSession st u now true).1,
        { success := false, session := none, error := some "Video not found" }) := by
    simp only [startSession, hcatq, hcat]
  simp only [updateHeartbeat, hs, hv, if_true, ne_eq, not_false_iff, if_pos, hstart]
  simp only [Bool.false_eq_true, if_false]
  exact ⟨by trivial, by trivial, hE.2.1, hE.2.2.1, hE.2.2.2, hE.1⟩

/-- C10 witness: heartbeating the stale-scenario session with unknown video
`"Z"` fails with "Video not found" and leaves no active session. -/
theorem heartbeat_unknown_video_ends_session_witness :
    (updateHeartbeat stStale "u" "Z" 1000 true).2.error = some "Video not found" ∧
    (updateHeartbeat stStale "u" "Z" 1000 true).1.session "u" = none ∧
    (updateHeartbeat stStale "u" "Z" 1000 true).1.pending "u" = 0 := by
  have h := heartbeat_unknown_video_ends_session stStale "u" "Z" 1000
    { userId := "u", videoId := "A", creatorId := "c",
      startTime := 0, lastSettlementTime := 0, totalRequests := 0 }
    (by simp [stStale, stEmpty]) (by decide) (by simp [stStale, stEmpty])
    (by simp [stStale, stEmpty]) (by simp [stStale, stEmpty])
  exact ⟨h.2.1, h.2.2.1, h.2.2.2.2.2⟩

/-! ## C7: exact watch-time attribution across a video switch -/

/-- C7: a user starts on video `A` of creator `cA` at `t0`, watches `T1`
seconds, heartbeats with a different video `B` of creator `cB` at
`t0 + 1000·T1` (forcing the end-then-start switch), watches `T2` seconds
and ends at `t0 + 1000·T1 + 1000·T2`.  Creator `cA`'s durable watch time
grows by exactly `T1` and creator `cB`'s by exactly `T2`: no interval is
counted twice and none is dropped at the switch boundary. -/
theorem video_switch_attribution (st0 : St) (u A B cA cB : String)
    (crA crB : CreatorRec) (t0 T1 T2 : Nat)
    (hT1 : 0 < T1) (hT2 : 0 < T2) (hAB : A ≠ B) (hcAB : cA ≠ cB)
    (hcatA : st0.catalog A = some cA) (hcatB : st0.catalog B = some cB)
    (hWTA : st0.pendingWT cA = 0) (hWTB : st0.pendingWT cB = 0)
    (hcrA : st0.creators cA = some crA) (hcrB : st0.creators cB = some crB)
    (hP : st0.pending u = 0) :
    (endSession (updateHeartbeat (startSession st0 u A t0).1 u B (t0 + 1000 * T1) true).1
        u (t0 + 1000 * T1 + 1000 * T2) true).1.creators cA =
      some { watchTime := crA.watchTime + (T1 : ℚ), amountEarned := crA.amountEarned } ∧
    (endSession (updateHeartbeat (startSession st0 u A t0).1 u B (t0 + 1000 * T1) true).1
        u (t0 + 1000 * T1 + 1000 * T2) true).1.creators cB =
      some { watchTime := crB.watchTime + (T2 : ℚ), amountEarned := crB.amountEarned } ∧
    (endSession (updateHeartbeat (startSession st0 u A t0).1 u B (t0 + 1000 * T1) true).1
        u (t0 + 1000 * T1 + 1000 * T2) true).1.session u = none := by
  have hT1Q : (0 : ℚ) < (T1 : ℚ) := by exact_mod_cast hT1
  have hT2Q : (0 : ℚ) < (T2 : ℚ) := by exact_mod_cast hT2
  have ha1 : (1000 * (T1 : ℚ)) / 1000 = (T1 : ℚ) := by ring
  have ha2 : (1000 * (T2 : ℚ)) / 1000 = (T2 : ℚ) := by ring
  have hcBA : cB ≠ cA := Ne.symm hcAB
  simp [startSession, updateHeartbeat, endSession, settleToDatabase, settleRead,
    settleCommit, runTransaction, addCreatorWatchTime,
    hcatA, hcatB, hWTA, hWTB, hcrA, hcrB, hP, hAB, hcAB, hcBA,
    ha1, ha2, hT1Q, hT2Q, ne_of_gt hT1Q, ne_of_gt hT2Q]

/-- C7 witness: watching `"A"` for 60 s, switching to `"B"`, watching 30 s
and ending credits creator `"cA"` exactly 60 and creator `"cB"` exactly 30. -/
theorem video_switch_attribution_witness :
    (endSession (updateHeartbeat (startSession stTwoVideos "u" "A" 0).1 "u" "B" 60000 true).1
        "u" 90000 true).1.creators "cA" = some { watchTime := 60, amountEarned := 0 } ∧
    (endSession (updateHeartbeat (startSession stTwoVideos "u" "A" 0).1 "u" "B" 60000 true).1
        "u" 90000 true).1.creators "cB" = some { watchTime := 30, amountEarned := 0 } := by
  have h := video_switch_attribution stTwoVideos "u" "A" "B" "cA" "cB"
    { watchTime := 0, amountEarned := 0 } { watchTime := 0, amountEarned := 0 } 0 60 30
    (by decide) (by decide) (by decide) (by decide)
    (by simp [stTwoVideos, stEmpty]) (by simp [stTwoVideos, stEmpty])
    (by simp [stTwoVideos, stEmpty]) (by simp [stTwoVideos, stEmpty])
    (by simp [stTwoVideos, stEmpty]) (by simp [stTwoVideos, stEmpty])
    (by simp [stTwoVideos, stEmpty])
  have h1 := h.1
  have h2 := h.2.1
  norm_num at h1 h2
  exact ⟨h1, h2⟩

end LogersWatch
